import Mathlib

/-!
Verification of the Stock-Trades REST API (Node/Express + Prisma) against its
natural-language specification.  The JavaScript sources are shallowly embedded:
pure request handlers become Lean functions, the persistent stores become
explicit list-backed states threaded through each route, machine time is an
explicit `now : Nat` parameter counting milliseconds since the epoch, and
fallible verification returns `Except`.  The external `jsonwebtoken` library is
modelled semantically: a signed token is a record of its payload, signing
secret, issue instant, and lifetime; `verify` succeeds exactly on
matching-secret unexpired tokens, distinguishing `TokenExpiredError` from
`JsonWebTokenError` just as the library does.  The external `bcryptjs` and Joi
email-format collaborators are function parameters of the routes that use them.
-/

namespace StockTrade

/-! ## JavaScript string primitives

`splitCharAux` mirrors JavaScript `String.prototype.split` with a single-char
separator (including its behaviour on empty strings and repeated separators);
`upperJs` mirrors `String.prototype.toUpperCase` on ASCII data.  Both are
structural so that concrete instances reduce in the kernel. -/

def splitCharAux (sep : Char) : List Char → List Char → List (List Char)
  | [], acc => [acc.reverse]
  | c :: cs, acc =>
    if c = sep then acc.reverse :: splitCharAux sep cs []
    else splitCharAux sep cs (c :: acc)

/-- JavaScript `s.split(sep)` for a one-character separator. -/
def jsSplit (sep : Char) (s : String) : List String :=
  (splitCharAux sep s.data []).map List.asString

/-- JavaScript `s.toUpperCase()` (ASCII fragment, as exercised by the API). -/
def upperJs (s : String) : String :=
  (s.data.map Char.toUpper).asString

/-! ## Token Codec (src/utils/jwt.js over the `jsonwebtoken` library) -/

/-- Decoded JWT payload.  Access tokens carry `{ userId, email }`; refresh
tokens carry `{ userId }` only, so the email is optional. -/
structure Claims where
  userId : Nat
  email : Option String
deriving DecidableEq, Repr

/-- Semantic model of a signed JWT string: the payload together with the
secret it was signed with, its issue instant and its lifetime (both in ms). -/
structure SignedJwt where
  claims : Claims
  secret : String
  iat : Nat
  expiresInMs : Nat
deriving DecidableEq, Repr

/-- Environment configuration read by src/utils/jwt.js (`JWT_ACCESS_SECRET`,
`JWT_REFRESH_SECRET`, `JWT_ACCESS_EXPIRY`, `JWT_REFRESH_EXPIRY`). -/
structure JwtConfig where
  accessSecret : String
  refreshSecret : String
  accessExpiryMs : Nat
  refreshExpiryMs : Nat
deriving DecidableEq, Repr

/-- The error taxonomy of `jsonwebtoken.verify`, discriminated by `error.name`
in the sources: `TokenExpiredError`, `JsonWebTokenError` (invalid signature /
malformed), or any other unexpected failure (e.g. `NotBeforeError`). -/
inductive VerifyError where
  | expired
  | invalidToken
  | other
deriving DecidableEq, Repr

/-- `jwt.sign(payload, secret, { expiresIn })`. -/
def signJwt (payload : Claims) (secret : String) (now expiresInMs : Nat) : SignedJwt :=
  ⟨payload, secret, now, expiresInMs⟩

/-- `jwt.verify(token, secret)` at instant `now`: the signature is checked
first (wrong secret or malformed ⇒ `JsonWebTokenError`), then expiry. -/
def verifyJwt (t : SignedJwt) (secret : String) (now : Nat) : Except VerifyError Claims :=
  if t.secret ≠ secret then .error .invalidToken
  else if t.iat + t.expiresInMs ≤ now then .error .expired
  else .ok t.claims

/-- `generateAccessToken(payload)` from src/utils/jwt.js. -/
def generateAccessToken (cfg : JwtConfig) (payload : Claims) (now : Nat) : SignedJwt :=
  signJwt payload cfg.accessSecret now cfg.accessExpiryMs

/-- `generateRefreshToken(payload)` from src/utils/jwt.js. -/
def generateRefreshToken (cfg : JwtConfig) (payload : Claims) (now : Nat) : SignedJwt :=
  signJwt payload cfg.refreshSecret now cfg.refreshExpiryMs

/-- `verifyAccessToken(token)` from src/utils/jwt.js. -/
def verifyAccessToken (cfg : JwtConfig) (now : Nat) (t : SignedJwt) : Except VerifyError Claims :=
  verifyJwt t cfg.accessSecret now

/-- `verifyRefreshToken(token)` from src/utils/jwt.js. -/
def verifyRefreshToken (cfg : JwtConfig) (now : Nat) (t : SignedJwt) : Except VerifyError Claims :=
  verifyJwt t cfg.refreshSecret now

/-- A token value as transported in a request body: either an actual signed
token or an unparseable string (which `jwt.verify` reports as
`JsonWebTokenError`). -/
inductive TokenWire where
  | tok (t : SignedJwt)
  | malformed
deriving DecidableEq, Repr

/-- `verifyRefreshToken` applied to a wire-level body value. -/
def verifyRefreshTokenWire (cfg : JwtConfig) (now : Nat) : TokenWire → Except VerifyError Claims
  | .malformed => .error .invalidToken
  | .tok t => verifyRefreshToken cfg now t

/-! ### Concrete wire format for tokens travelling in HTTP headers

The `Authorization` header is a plain string that the auth middleware splits
on spaces, so tokens crossing that boundary need a concrete, space-free string
serialization.  All numeric content is rendered in decimal and strings as
dot-separated character codes; any string that does not parse is a malformed
token (`JsonWebTokenError`), exactly like a garbage JWT. -/

def encodeNatField (n : Nat) : List Char :=
  Nat.toDigits 10 n

def encodeStrField (s : String) : List Char :=
  List.intercalate ['.'] (['s'] :: s.data.map (fun c => encodeNatField c.toNat))

def encodeEmailField : Option String → List Char
  | none => ['n']
  | some s => encodeStrField s

/-- Render a signed token as a space-free header-transportable string. -/
def encodeJwt (t : SignedJwt) : String :=
  (List.intercalate [','] ["jwt".data, encodeNatField t.claims.userId,
    encodeEmailField t.claims.email, encodeStrField t.secret,
    encodeNatField t.iat, encodeNatField t.expiresInMs]).asString

def natFromDigitsAux : List Char → Nat → Option Nat
  | [], acc => some acc
  | c :: cs, acc =>
    if 48 ≤ c.toNat ∧ c.toNat ≤ 57 then natFromDigitsAux cs (acc * 10 + (c.toNat - 48))
    else none

def natFromDigits : List Char → Option Nat
  | [] => none
  | c :: cs => natFromDigitsAux (c :: cs) 0

def decodeCharCodes : List (List Char) → Option (List Char)
  | [] => some []
  | f :: fs =>
    match natFromDigits f, decodeCharCodes fs with
    | some n, some rest => some (Char.ofNat n :: rest)
    | _, _ => none

def decodeStrField (l : List Char) : Option String :=
  match splitCharAux '.' l [] with
  | tag :: fields => if tag = ['s'] then (decodeCharCodes fields).map List.asString else none
  | [] => none

def decodeEmailField (l : List Char) : Option (Option String) :=
  if l = ['n'] then some none else (decodeStrField l).map some

/-- Parse a header-transported token string back into a signed token. -/
def decodeJwt (s : String) : Option SignedJwt :=
  match splitCharAux ',' s.data [] with
  | [tag, uid, em, sec, iat, exp] =>
    if tag = "jwt".data then
      match natFromDigits uid, decodeEmailField em, decodeStrField sec,
            natFromDigits iat, natFromDigits exp with
      | some u, some e, some sc, some i, some x => some ⟨⟨u, e⟩, sc, i, x⟩
      | _, _, _, _, _ => none
    else none
  | _ => none

/-- `verifyAccessToken` applied to a raw header-extracted string: a string
that is not a token at all raises `JsonWebTokenError`. -/
def verifyAccessTokenStr (cfg : JwtConfig) (now : Nat) (s : String) : Except VerifyError Claims :=
  match decodeJwt s with
  | none => .error .invalidToken
  | some t => verifyAccessToken cfg now t

/-! ## Auth Gate (src/middleware/authMiddleware.js, `authenticateToken`) -/

/-- Outcome of the middleware: either `next()` is called with the decoded
claims attached as `req.user`, or the request is terminated with a status and
error message. -/
inductive AuthOutcome where
  | proceed (user : Claims)
  | reject (status : Nat) (error : String)
deriving DecidableEq, Repr

/-- `const token = authHeader && authHeader.split(' ')[1]`, followed by the
falsiness test `if (!token)`: the extracted credential is the second
space-separated component of the header, when present and non-empty. -/
def extractToken (authHeader : Option String) : Option String :=
  match authHeader with
  | none => none
  | some h =>
    match (jsSplit ' ' h).get? 1 with
    | none => none
    | some t => if t = "" then none else some t

/-- The `authenticateToken` middleware, parameterised by the access-token
verifier it calls (`verifyAccessToken` at the deployed configuration). -/
def authenticateToken (verifyStr : String → Except VerifyError Claims)
    (authHeader : Option String) : AuthOutcome :=
  match extractToken authHeader with
  | none => .reject 401 "Access token required"
  | some tok =>
    match verifyStr tok with
    | .ok decoded => .proceed decoded
    | .error .expired => .reject 401 "Access token expired"
    | .error .invalidToken => .reject 401 "Invalid access token"
    | .error .other => .reject 500 "Token verification failed"

/-- Spec-side notion, for comparison with the source behaviour: an
`Authorization` header value "of the form `Bearer <token>`" — the literal
scheme word `Bearer`, one space, and a non-empty credential. -/
def specBearerForm (h : String) : Bool :=
  match jsSplit ' ' h with
  | [scheme, t] => scheme == "Bearer" && !(t == "")
  | _ => false

/-! ## Global error handler (src/middleware/errorHandler.js) -/

/-- The error classes the global handler discriminates on: Prisma unique
constraint violation, Prisma record-not-found, the two JWT error names, or a
generic error carrying an optional status and message. -/
inductive AppError where
  | p2002
  | p2025
  | jsonWebTokenErr
  | tokenExpiredErr
  | generic (status : Option Nat) (message : Option String)
deriving DecidableEq, Repr

structure ErrResponse where
  status : Nat
  error : String
  details : Option String
deriving DecidableEq, Repr

/-- `errorHandler` from src/middleware/errorHandler.js (production mode: no
stack trace in the body). -/
def errorHandler : AppError → ErrResponse
  | .p2002 => ⟨409, "Unique constraint violation", some "A record with this data already exists"⟩
  | .p2025 => ⟨404, "Record not found", none⟩
  | .jsonWebTokenErr => ⟨401, "Invalid token", none⟩
  | .tokenExpiredErr => ⟨401, "Token expired", none⟩
  | .generic st msg => ⟨st.getD 500, msg.getD "Internal server error", none⟩

/-! ## User store (Prisma `User` model over MySQL)

`prisma.user.findUnique({ where: { email } })`, `findUnique({ where: { id } })`
and `create` with auto-incremented ids, modelled as a list of rows plus the
next id the store will assign. -/

structure User where
  id : Nat
  email : String
  password : String
deriving DecidableEq, Repr

structure UserStore where
  users : List User
  nextId : Nat
deriving DecidableEq, Repr

def findByEmail (st : UserStore) (email : String) : Option User :=
  st.users.find? (fun u => u.email == email)

def findById (st : UserStore) (id : Nat) : Option User :=
  st.users.find? (fun u => u.id == id)

/-- `prisma.user.create({ data: { email, password } })`. -/
def createUser (st : UserStore) (email hashed : String) : UserStore × User :=
  (⟨st.users ++ [⟨st.nextId, email, hashed⟩], st.nextId + 1⟩, ⟨st.nextId, email, hashed⟩)

/-! ## Account Service (src/routes/authRoutes.js) -/

/-- The `select: { id: true, email: true }` projection: the only account
fields ever placed in a response body (the password hash has no field here). -/
structure UserInfo where
  id : Nat
  email : String
deriving DecidableEq, Repr

/-- Response of the signup and login endpoints. -/
inductive AuthOut where
  | success (status : Nat) (message : String) (user : UserInfo)
      (accessToken : SignedJwt) (refreshToken : SignedJwt)
  | failure (status : Nat) (error : String)
deriving DecidableEq, Repr

structure SignupBody where
  email : String
  password : String
deriving DecidableEq, Repr

/-- `signupSchema` (src/utils/validationSchemas.js): email in Joi's email
format — the format test itself is the external Joi collaborator `emailOk` —
and password of length at least 6. -/
def signupValid (emailOk : String → Bool) (b : SignupBody) : Bool :=
  emailOk b.email && decide (6 ≤ b.password.length)

/-- `loginSchema`: email in Joi's email format, password required (Joi
rejects the empty string). -/
def loginValid (emailOk : String → Bool) (b : SignupBody) : Bool :=
  emailOk b.email && !(b.password == "")

/-- Modelled from the spec: the `validate` middleware
(src/middleware/validationMiddleware.js is not among the sources; only the
schemas it evaluates are).  Per §4.5/§7 of the spec, "Any violation fails
with `ValidationFailed` before touching storage", i.e. HTTP 400 — the test
suite pins the body to `{ error: 'Validation failed' }`.  Routes below embed
this guard in front of their handler. -/
def validationFailedMsg : String := "Validation failed"

/-- `router.post('/signup')` (src/routes/authRoutes.js), composed with
`validate(signupSchema)`.  `hash` is the external bcrypt collaborator
(`bcrypt.hash(password, 12)`). -/
def signupRoute (emailOk : String → Bool) (hash : String → String) (cfg : JwtConfig)
    (now : Nat) (st : UserStore) (b : SignupBody) : UserStore × AuthOut :=
  if signupValid emailOk b then
    match findByEmail st b.email with
    | some _ => (st, .failure 409 "User with this email already exists")
    | none =>
      let created := createUser st b.email (hash b.password)
      let user := created.2
      let accessToken := generateAccessToken cfg ⟨user.id, some user.email⟩ now
      let refreshToken := generateRefreshToken cfg ⟨user.id, none⟩ now
      (created.1, .success 201 "User created successfully" ⟨user.id, user.email⟩
        accessToken refreshToken)
  else (st, .failure 400 "Validation failed")

/-- `router.post('/login')` (src/routes/authRoutes.js), composed with
`validate(loginSchema)`.  `compare` is the external bcrypt collaborator
(`bcrypt.compare(password, user.password)`). -/
def loginRoute (emailOk : String → Bool) (compare : String → String → Bool)
    (cfg : JwtConfig) (now : Nat) (st : UserStore) (b : SignupBody) : UserStore × AuthOut :=
  if loginValid emailOk b then
    match findByEmail st b.email with
    | none => (st, .failure 401 "Invalid email or password")
    | some user =>
      if compare b.password user.password then
        (st, .success 200 "Login successful" ⟨user.id, user.email⟩
          (generateAccessToken cfg ⟨user.id, some user.email⟩ now)
          (generateRefreshToken cfg ⟨user.id, none⟩ now))
      else (st, .failure 401 "Invalid email or password")
  else (st, .failure 400 "Validation failed")

/-- Response of the token-refresh endpoint.  A success body is
`{ accessToken }` — it has no refresh-token field, which the model records as
`refreshToken = none`.  An error the route does not recognise is forwarded to
the global error handler (`next(error)`). -/
inductive RefreshOut where
  | success (status : Nat) (accessToken : SignedJwt) (refreshToken : Option SignedJwt)
  | failure (status : Nat) (error : String)
  | forwarded
deriving DecidableEq, Repr

/-- `router.post('/token/refresh')` (src/routes/authRoutes.js).  The body's
`refreshToken` field is absent (`none`) or a wire-level token value. -/
def refreshRoute (cfg : JwtConfig) (now : Nat) (st : UserStore)
    (body : Option TokenWire) : UserStore × RefreshOut :=
  match body with
  | none => (st, .failure 401 "Refresh token required")
  | some w =>
    match verifyRefreshTokenWire cfg now w with
    | .error .expired => (st, .failure 401 "Refresh token expired")
    | .error .invalidToken => (st, .failure 401 "Invalid refresh token")
    | .error .other => (st, .forwarded)
    | .ok decoded =>
      match findById st decoded.userId with
      | none => (st, .failure 401 "User not found")
      | some user =>
        (st, .success 200 (generateAccessToken cfg ⟨user.id, some user.email⟩ now) none)

/-! ## Trade store (Prisma `Trade` model over MySQL) -/

/-- A persisted trade row.  `timestamp` is the creation instant in epoch
milliseconds (`DateTime` stored at millisecond granularity, read back through
`Date.getTime()`). -/
structure Trade where
  id : Nat
  type : String
  userId : Nat
  symbol : String
  shares : Nat
  price : Rat
  timestamp : Nat
deriving DecidableEq, Repr

structure TradeStore where
  trades : List Trade
  nextId : Nat
deriving DecidableEq, Repr

/-- `prisma.trade.create` with the auto-incremented id. -/
def createTrade (st : TradeStore) (type : String) (userId : Nat) (symbol : String)
    (shares : Nat) (price : Rat) (now : Nat) : TradeStore × Trade :=
  (⟨st.trades ++ [⟨st.nextId, type, userId, symbol, shares, price, now⟩], st.nextId + 1⟩,
   ⟨st.nextId, type, userId, symbol, shares, price, now⟩)

/-! ## Trade Service (src/routes/tradesRoutes.js) -/

/-- A POST /trades request body after JSON parsing and Joi numeric coercion:
each field is absent or a value of the schema's primitive type (numbers as
exact rationals). -/
structure TradeBody where
  type : Option String
  user_id : Option Rat
  symbol : Option String
  shares : Option Rat
  price : Option Rat
deriving DecidableEq, Repr

/-- `createTradeSchema` (src/utils/validationSchemas.js): type exactly
`"buy"` or `"sell"`; `user_id` a positive integer; `symbol` a non-empty
string (Joi `string()` rejects `''`); `shares` an integer between 1 and 100
inclusive; `price` positive; every field required. -/
def createTradeValid (b : TradeBody) : Bool :=
  match b.type, b.user_id, b.symbol, b.shares, b.price with
  | some ty, some uid, some sym, some sh, some pr =>
    (ty == "buy" || ty == "sell") &&
    (decide (uid.den = 1) && decide (0 < uid)) &&
    !(sym == "") &&
    (decide (sh.den = 1) && decide (1 ≤ sh) && decide (sh ≤ 100)) &&
    decide (0 < pr)
  | _, _, _, _, _ => false

/-- A validated integral rational read back as the natural number it denotes. -/
def ratToNat (q : Rat) : Nat := q.num.toNat

/-- The response shape shared by every trade endpoint: the stored row with
`userId` renamed to `user_id` and the creation instant as an integer count of
epoch milliseconds (`trade.timestamp.getTime()`). -/
structure TradeResponse where
  id : Nat
  type : String
  user_id : Nat
  symbol : String
  shares : Nat
  price : Rat
  timestamp : Nat
deriving DecidableEq, Repr

def tradeToResponse (t : Trade) : TradeResponse :=
  ⟨t.id, t.type, t.userId, t.symbol, t.shares, t.price, t.timestamp⟩

inductive PostTradeOut where
  | created (status : Nat) (trade : TradeResponse)
  | failure (status : Nat) (error : String)
deriving DecidableEq, Repr

/-- The POST /trades handler body (after `authenticateToken` and
`validate(createTradeSchema)`): destructure the body, normalize the symbol to
uppercase, persist with the write-time instant, and shape the response. -/
def postTradesHandler (st : TradeStore) (now : Nat) (b : TradeBody) : TradeStore × PostTradeOut :=
  match b.type, b.user_id, b.symbol, b.shares, b.price with
  | some ty, some uid, some sym, some sh, some pr =>
    let created := createTrade st ty (ratToNat uid) (upperJs sym) (ratToNat sh) pr now
    (created.1, .created 201 (tradeToResponse created.2))
  | _, _, _, _, _ => (st, .failure 400 "Validation failed")

/-- `router.post('/')` of src/routes/tradesRoutes.js: `authenticateToken`,
then `validate(createTradeSchema)` (modelled from the spec, see
`validationFailedMsg`), then the handler. -/
def postTradesRoute (verifyStr : String → Except VerifyError Claims)
    (authHeader : Option String) (st : TradeStore) (now : Nat)
    (b : TradeBody) : TradeStore × PostTradeOut :=
  match authenticateToken verifyStr authHeader with
  | .reject status error => (st, .failure status error)
  | .proceed _user =>
    if createTradeValid b then postTradesHandler st now b
    else (st, .failure 400 "Validation failed")

/-- `tradeQuerySchema`: the optional `type` filter must be `buy` or `sell`;
the optional `user_id` filter must be a positive integer. -/
def tradeQueryValid (type? : Option String) (userId? : Option Rat) : Bool :=
  (match type? with
   | some ty => ty == "buy" || ty == "sell"
   | none => true) &&
  (match userId? with
   | some uid => decide (uid.den = 1) && decide (0 < uid)
   | none => true)

/-- The Prisma `where` filter built by the GET /trades handler: each supplied
query filter must match. -/
def tradeMatches (type? : Option String) (userId? : Option Nat) (t : Trade) : Bool :=
  (match type? with
   | some ty => t.type == ty
   | none => true) &&
  (match userId? with
   | some uid => t.userId == uid
   | none => true)

/-- `orderBy: { id: 'asc' }` of `prisma.trade.findMany`. -/
def sortTradesById (l : List Trade) : List Trade :=
  List.insertionSort (fun a b => a.id ≤ b.id) l

instance : DecidableRel (fun (a b : Trade) => a.id ≤ b.id) :=
  fun a b => Nat.decLe a.id b.id

instance : IsTotal Trade (fun a b => a.id ≤ b.id) :=
  ⟨fun a b => Nat.le_total a.id b.id⟩

instance : IsTrans Trade (fun a b => a.id ≤ b.id) :=
  ⟨fun _ _ _ => Nat.le_trans⟩

/-- `prisma.trade.findMany({ where, orderBy: { id: 'asc' } })`. -/
def findManyTrades (st : TradeStore) (type? : Option String) (userId? : Option Nat) : List Trade :=
  sortTradesById (st.trades.filter (tradeMatches type? userId?))

inductive ListTradesOut where
  | ok (status : Nat) (trades : List TradeResponse)
  | failure (status : Nat) (error : String)
deriving DecidableEq, Repr

/-- `router.get('/')` of src/routes/tradesRoutes.js: `authenticateToken`,
`validate(tradeQuerySchema, 'query')`, then filter, order by ascending id and
shape each row. -/
def getTradesRoute (verifyStr : String → Except VerifyError Claims)
    (authHeader : Option String) (st : TradeStore)
    (type? : Option String) (userId? : Option Rat) : ListTradesOut :=
  match authenticateToken verifyStr authHeader with
  | .reject status error => .failure status error
  | .proceed _user =>
    if tradeQueryValid type? userId? then
      .ok 200 ((findManyTrades st type? (userId?.map ratToNat)).map tradeToResponse)
    else .failure 400 "Validation failed"

inductive GetTradeOut where
  | ok (status : Nat) (trade : TradeResponse)
  | failure (status : Nat) (error : String)
deriving DecidableEq, Repr

/-- The GET /trades/:id handler body: `findUnique` by id, 404 when absent. -/
def getTradeByIdHandler (st : TradeStore) (id : Nat) : GetTradeOut :=
  match st.trades.find? (fun t => t.id == id) with
  | none => .failure 404 "Trade not found"
  | some t => .ok 200 (tradeToResponse t)

/-- `router.get('/:id')` of src/routes/tradesRoutes.js (path parameter
validated by `tradeIdSchema`: a positive integer). -/
def getTradeByIdRoute (verifyStr : String → Except VerifyError Claims)
    (authHeader : Option String) (st : TradeStore) (idParam : Rat) : GetTradeOut :=
  match authenticateToken verifyStr authHeader with
  | .reject status error => .failure status error
  | .proceed _user =>
    if decide (idParam.den = 1) && decide (0 < idParam) then
      getTradeByIdHandler st (ratToNat idParam)
    else .failure 400 "Validation failed"

/-- Response of the PUT/PATCH/DELETE /trades/:id routes: the unconditional
405 body `{ error, message }`, or the auth gate's rejection. -/
inductive MutationOut where
  | methodNotAllowed (status : Nat) (error : String) (message : String)
  | authFail (status : Nat) (error : String)
deriving DecidableEq, Repr

/-- `router.put('/:id')`: rejected unconditionally once authenticated; the
store is not touched. -/
def putTradeRoute (verifyStr : String → Except VerifyError Claims)
    (authHeader : Option String) (st : TradeStore) (_idParam : String) :
    TradeStore × MutationOut :=
  match authenticateToken verifyStr authHeader with
  | .reject status error => (st, .authFail status error)
  | .proceed _user => (st, .methodNotAllowed 405 "Method not allowed" "Trade modification is not permitted")

/-- `router.patch('/:id')`: same body as the PUT route. -/
def patchTradeRoute (verifyStr : String → Except VerifyError Claims)
    (authHeader : Option String) (st : TradeStore) (_idParam : String) :
    TradeStore × MutationOut :=
  match authenticateToken verifyStr authHeader with
  | .reject status error => (st, .authFail status error)
  | .proceed _user => (st, .methodNotAllowed 405 "Method not allowed" "Trade modification is not permitted")

/-- `router.delete('/:id')`. -/
def deleteTradeRoute (verifyStr : String → Except VerifyError Claims)
    (authHeader : Option String) (st : TradeStore) (_idParam : String) :
    TradeStore × MutationOut :=
  match authenticateToken verifyStr authHeader with
  | .reject status error => (st, .authFail status error)
  | .proceed _user => (st, .methodNotAllowed 405 "Method not allowed" "Trade deletion is not permitted")

/-! ## Shared concrete instances and helper lemmas -/

/-- A deployment configuration with the two distinct signing secrets the spec
prescribes. -/
def sampleCfg : JwtConfig := ⟨"access-secret", "refresh-secret", 600000, 604800000⟩

/-- An access token for account 7, issued at instant 1000 under `sampleCfg`. -/
def sampleTok : SignedJwt := generateAccessToken sampleCfg ⟨7, some "a@b.com"⟩ 1000

/-- A deployment configuration in which both environment secrets happen to
hold the same value — nothing in the sources rules this out. -/
def cfgEqSecrets : JwtConfig := ⟨"shared-secret", "shared-secret", 600000, 604800000⟩

/-- In a store whose rows have pairwise-distinct ids, `find?` by the id of a
member row returns exactly that row. -/
theorem find_of_mem_of_pairwise_ne {l : List Trade}
    (hp : l.Pairwise (fun a b => a.id ≠ b.id)) {t : Trade} (ht : t ∈ l) :
    l.find? (fun x => x.id == t.id) = some t := by
  induction l with
  | nil => cases ht
  | cons a l ih =>
    rcases List.mem_cons.mp ht with rfl | hmem
    · simp [List.find?]
    · have hne : a.id ≠ t.id := (List.pairwise_cons.mp hp).1 t hmem
      have hrec := ih (List.pairwise_cons.mp hp).2 hmem
      have hb : (a.id == t.id) = false := by simpa using hne
      simp [List.find?, hb, hrec]

/-! ## C1 -/

/-- C1, counterexample.  The claim says a malformed `Authorization` header —
one not of the form `Bearer <token>` — is answered with the
"Access token required" message and no further processing.  In the code the
scheme word is never inspected: the header `"Basic bogus"` (not of Bearer
form) has its second component verified, producing the "Invalid access token"
message, and a header carrying a *valid* access token under the `Basic`
scheme even authenticates successfully. -/
theorem c1_claim_false :
    specBearerForm "Basic bogus" = false ∧
    authenticateToken (verifyAccessTokenStr sampleCfg 1000) (some "Basic bogus") =
      .reject 401 "Invalid access token" ∧
    authenticateToken (verifyAccessTokenStr sampleCfg 1000) (some "Basic bogus") ≠
      .reject 401 "Access token required" ∧
    specBearerForm ("Basic " ++ encodeJwt sampleTok) = false ∧
    authenticateToken (verifyAccessTokenStr sampleCfg 1000)
      (some ("Basic " ++ encodeJwt sampleTok)) = .proceed ⟨7, some "a@b.com"⟩ := by
  refine ⟨by decide, by decide, by decide, by decide, by decide⟩

/-- C1, amended.  The Auth Gate classifies every request exhaustively: when
the header is missing, or has no non-empty second space-separated component
(the scheme word itself is never checked), it responds 401 "Access token
required" and the token is never verified; otherwise the second component is
verified and the outcome maps to 401 "Access token expired" on expiry, 401
"Invalid access token" on an invalid signature or malformed token, a 500
"Token verification failed" internal error distinct from both 401 variants on
any other failure, and on success the decoded claims are attached and
processing continues. -/
theorem c1_auth_gate_exhaustive (verifyStr : String → Except VerifyError Claims)
    (h : Option String) :
    (extractToken (none : Option String) = none) ∧
    (extractToken h = none →
      authenticateToken verifyStr h = .reject 401 "Access token required") ∧
    (∀ tok c, extractToken h = some tok → verifyStr tok = .ok c →
      authenticateToken verifyStr h = .proceed c) ∧
    (∀ tok, extractToken h = some tok → verifyStr tok = .error .expired →
      authenticateToken verifyStr h = .reject 401 "Access token expired") ∧
    (∀ tok, extractToken h = some tok → verifyStr tok = .error .invalidToken →
      authenticateToken verifyStr h = .reject 401 "Invalid access token") ∧
    (∀ tok, extractToken h = some tok → verifyStr tok = .error .other →
      authenticateToken verifyStr h = .reject 500 "Token verification failed") := by
  refine ⟨rfl, ?_, ?_, ?_, ?_, ?_⟩
  · intro hx; simp [authenticateToken, hx]
  · intro tok c hx hv; simp [authenticateToken, hx, hv]
  · intro tok hx hv; simp [authenticateToken, hx, hv]
  · intro tok hx hv; simp [authenticateToken, hx, hv]
  · intro tok hx hv; simp [authenticateToken, hx, hv]

/-- C1, witness: the amended classification applied at the concrete header
`Bearer <sampleTok>` and at a headerless request. -/
theorem c1_auth_gate_exhaustive_witness :
    authenticateToken (verifyAccessTokenStr sampleCfg 1000)
      (some ("Bearer " ++ encodeJwt sampleTok)) = .proceed ⟨7, some "a@b.com"⟩ ∧
    authenticateToken (verifyAccessTokenStr sampleCfg 1000) none =
      .reject 401 "Access token required" := by
  constructor
  · exact (c1_auth_gate_exhaustive (verifyAccessTokenStr sampleCfg 1000)
      (some ("Bearer " ++ encodeJwt sampleTok))).2.2.1
      (encodeJwt sampleTok) ⟨7, some "a@b.com"⟩ (by decide) (by rfl)
  · exact (c1_auth_gate_exhaustive (verifyAccessTokenStr sampleCfg 1000) none).2.1 (by decide)

/-! ## C2 -/

/-- C2, counterexample.  The claim says a token issued by the refresh-token
issuer is never accepted by access-token verification.  The signing secrets
are environment inputs the code never compares: in a deployment whose two
secret variables hold the same value, a fresh refresh token verifies
successfully against the access-token secret. -/
theorem c2_claim_false :
    verifyAccessToken cfgEqSecrets 0 (generateRefreshToken cfgEqSecrets ⟨1, none⟩ 0) =
      .ok ⟨1, none⟩ := by
  rfl

/-- C2, amended.  Provided the deployed configuration gives the access and
refresh secrets distinct values (the spec's stated deployment contract),
every token issued by the refresh-token issuer is rejected by access-token
verification with the invalid-signature error, and vice versa, at every
verification instant. -/
theorem c2_distinct_secrets_reject (cfg : JwtConfig)
    (hne : cfg.accessSecret ≠ cfg.refreshSecret) (p : Claims) (now now' : Nat) :
    verifyAccessToken cfg now' (generateRefreshToken cfg p now) = .error .invalidToken ∧
    verifyRefreshToken cfg now' (generateAccessToken cfg p now) = .error .invalidToken := by
  constructor
  · simp [verifyAccessToken, generateRefreshToken, verifyJwt, signJwt, Ne.symm hne]
  · simp [verifyRefreshToken, generateAccessToken, verifyJwt, signJwt, hne]

/-- C2, witness: the amended property at the concrete distinct-secret
configuration `sampleCfg`. -/
theorem c2_distinct_secrets_reject_witness :
    verifyAccessToken sampleCfg 5 (generateRefreshToken sampleCfg ⟨2, none⟩ 3) =
      .error .invalidToken ∧
    verifyRefreshToken sampleCfg 5 (generateAccessToken sampleCfg ⟨2, none⟩ 3) =
      .error .invalidToken :=
  c2_distinct_secrets_reject sampleCfg (by decide) ⟨2, none⟩ 3 5

/-! ## C3 -/

/-- C3: for every authenticated POST /trades request, a body violating any
schema constraint (direction not exactly buy/sell, shares not an integer in
1–100, price not positive, a required field missing) is answered 400
"Validation failed" with the trade store untouched; a valid body is persisted
with the symbol uppercased and the creation instant assigned at write time,
and the full record is returned with that instant as an integer count of
epoch milliseconds. -/
theorem c3_post_trades (verifyStr : String → Except VerifyError Claims)
    (h : Option String) (u : Claims) (st : TradeStore) (now : Nat) (b : TradeBody)
    (hauth : authenticateToken verifyStr h = .proceed u) :
    (createTradeValid b = false →
      postTradesRoute verifyStr h st now b = (st, .failure 400 "Validation failed")) ∧
    (∀ ty uid sym sh pr, b = ⟨some ty, some uid, some sym, some sh, some pr⟩ →
      createTradeValid b = true →
      postTradesRoute verifyStr h st now b =
        (⟨st.trades ++ [⟨st.nextId, ty, ratToNat uid, upperJs sym, ratToNat sh, pr, now⟩],
           st.nextId + 1⟩,
         .created 201
           (tradeToResponse ⟨st.nextId, ty, ratToNat uid, upperJs sym, ratToNat sh, pr, now⟩))) := by
  constructor
  · intro hv
    simp [postTradesRoute, hauth, hv]
  · rintro ty uid sym sh pr rfl hv
    simp [postTradesRoute, hauth, hv, postTradesHandler, createTrade]

/-- C3, witness: shares=150 and shares=0 are rejected before any store write,
shares=100 is accepted, the symbol `aapl` is persisted as `AAPL`, and the
creation instant of the write (5000 ms) is returned as an integer. -/
theorem c3_post_trades_witness :
    createTradeValid ⟨some "buy", some 7, some "aapl", some 150, some 150⟩ = false ∧
    postTradesRoute (verifyAccessTokenStr sampleCfg 1000)
        (some ("Bearer " ++ encodeJwt sampleTok)) ⟨[], 1⟩ 5000
        ⟨some "buy", some 7, some "aapl", some 150, some 150⟩ =
      (⟨[], 1⟩, .failure 400 "Validation failed") ∧
    createTradeValid ⟨some "buy", some 7, some "aapl", some 0, some 150⟩ = false ∧
    createTradeValid ⟨some "buy", some 7, some "aapl", some 100, some 150⟩ = true ∧
    postTradesRoute (verifyAccessTokenStr sampleCfg 1000)
        (some ("Bearer " ++ encodeJwt sampleTok)) ⟨[], 1⟩ 5000
        ⟨some "buy", some 7, some "aapl", some 100, some 150⟩ =
      (⟨[⟨1, "buy", 7, "AAPL", 100, 150, 5000⟩], 2⟩,
       .created 201 ⟨1, "buy", 7, "AAPL", 100, 150, 5000⟩) := by
  refine ⟨by decide, ?_, by decide, by decide, ?_⟩
  · exact (c3_post_trades (verifyAccessTokenStr sampleCfg 1000)
      (some ("Bearer " ++ encodeJwt sampleTok)) ⟨7, some "a@b.com"⟩ ⟨[], 1⟩ 5000
      ⟨some "buy", some 7, some "aapl", some 150, some 150⟩ (by decide)).1 (by decide)
  · exact ((c3_post_trades (verifyAccessTokenStr sampleCfg 1000)
      (some ("Bearer " ++ encodeJwt sampleTok)) ⟨7, some "a@b.com"⟩ ⟨[], 1⟩ 5000
      ⟨some "buy", some 7, some "aapl", some 100, some 150⟩ (by decide)).2
      "buy" 7 "aapl" 100 150 rfl (by decide)).trans (by decide)

/-! ## C4 -/

/-- C4: every authenticated PUT, PATCH or DELETE against /trades/:id — for
any id parameter, whether or not a matching trade exists — is answered 405
with reason "Trade modification is not permitted" (PUT/PATCH) or
"Trade deletion is not permitted" (DELETE), the store is returned unchanged,
and in a store with distinct row ids every previously created trade remains
retrievable by id afterwards with identical fields. -/
theorem c4_mutation_rejected (verifyStr : String → Except VerifyError Claims)
    (h : Option String) (u : Claims) (st : TradeStore) (idp : String)
    (hauth : authenticateToken verifyStr h = .proceed u) :
    putTradeRoute verifyStr h st idp =
      (st, .methodNotAllowed 405 "Method not allowed" "Trade modification is not permitted") ∧
    patchTradeRoute verifyStr h st idp =
      (st, .methodNotAllowed 405 "Method not allowed" "Trade modification is not permitted") ∧
    deleteTradeRoute verifyStr h st idp =
      (st, .methodNotAllowed 405 "Method not allowed" "Trade deletion is not permitted") ∧
    (st.trades.Pairwise (fun a b => a.id ≠ b.id) → ∀ t ∈ st.trades,
      getTradeByIdHandler (putTradeRoute verifyStr h st idp).1 t.id =
        .ok 200 (tradeToResponse t) ∧
      getTradeByIdHandler (patchTradeRoute verifyStr h st idp).1 t.id =
        .ok 200 (tradeToResponse t) ∧
      getTradeByIdHandler (deleteTradeRoute verifyStr h st idp).1 t.id =
        .ok 200 (tradeToResponse t)) := by
  refine ⟨by simp [putTradeRoute, hauth], by simp [patchTradeRoute, hauth],
    by simp [deleteTradeRoute, hauth], ?_⟩
  intro hp t ht
  have hfind := find_of_mem_of_pairwise_ne hp ht
  exact ⟨by simp [putTradeRoute, hauth, getTradeByIdHandler, hfind],
    by simp [patchTradeRoute, hauth, getTradeByIdHandler, hfind],
    by simp [deleteTradeRoute, hauth, getTradeByIdHandler, hfind]⟩

/-- C4, witness: against a store holding one trade, the three mutating verbs
each return 405 with their human-readable reason and the trade is still
retrievable unchanged. -/
theorem c4_mutation_rejected_witness :
    putTradeRoute (verifyAccessTokenStr sampleCfg 1000)
        (some ("Bearer " ++ encodeJwt sampleTok)) ⟨[⟨1, "buy", 7, "AAPL", 50, 150, 5000⟩], 2⟩ "1" =
      (⟨[⟨1, "buy", 7, "AAPL", 50, 150, 5000⟩], 2⟩,
       .methodNotAllowed 405 "Method not allowed" "Trade modification is not permitted") ∧
    getTradeByIdHandler
        (putTradeRoute (verifyAccessTokenStr sampleCfg 1000)
          (some ("Bearer " ++ encodeJwt sampleTok))
          ⟨[⟨1, "buy", 7, "AAPL", 50, 150, 5000⟩], 2⟩ "1").1 1 =
      .ok 200 ⟨1, "buy", 7, "AAPL", 50, 150, 5000⟩ := by
  have hmain := c4_mutation_rejected (verifyAccessTokenStr sampleCfg 1000)
    (some ("Bearer " ++ encodeJwt sampleTok)) ⟨7, some "a@b.com"⟩
    ⟨[⟨1, "buy", 7, "AAPL", 50, 150, 5000⟩], 2⟩ "1" (by decide)
  refine ⟨hmain.1, ?_⟩
  exact ((hmain.2.2.2 (by simp) ⟨1, "buy", 7, "AAPL", 50, 150, 5000⟩ (by simp)).1).trans (by decide)

/-! ## C5 -/

/-- C5: for any two login requests that pass body validation — one whose
email has no account in its store, one whose email exists but whose password
fails the credential check — both are answered 401, and the two error
messages are character-for-character identical, so the response never
distinguishes "wrong password" from "no such email". -/
theorem c5_login_enum_resistance (emailOk : String → Bool)
    (compare : String → String → Bool) (cfg : JwtConfig) (now1 now2 : Nat)
    (st1 st2 : UserStore) (b1 b2 : SignupBody) (u : User)
    (hv1 : loginValid emailOk b1 = true) (hv2 : loginValid emailOk b2 = true)
    (h1 : findByEmail st1 b1.email = none)
    (h2 : findByEmail st2 b2.email = some u)
    (h3 : compare b2.password u.password = false) :
    (loginRoute emailOk compare cfg now1 st1 b1).2 =
      .failure 401 "Invalid email or password" ∧
    (loginRoute emailOk compare cfg now2 st2 b2).2 =
      .failure 401 "Invalid email or password" ∧
    (loginRoute emailOk compare cfg now1 st1 b1).2 =
      (loginRoute emailOk compare cfg now2 st2 b2).2 := by
  have e1 : (loginRoute emailOk compare cfg now1 st1 b1).2 =
      .failure 401 "Invalid email or password" := by
    simp [loginRoute, hv1, h1]
  have e2 : (loginRoute emailOk compare cfg now2 st2 b2).2 =
      .failure 401 "Invalid email or password" := by
    simp [loginRoute, hv2, h2, h3]
  exact ⟨e1, e2, e1.trans e2.symm⟩

/-- C5, witness: a login for an email with no account and a login for an
existing account with a wrong password (bcrypt modelled as string equality
of hash and plaintext for the concrete instance) produce the same body. -/
theorem c5_login_enum_resistance_witness :
    (loginRoute (fun _ => true) (fun p hs => p == hs) sampleCfg 0 ⟨[], 1⟩
        ⟨"ghost@b.com", "secret1"⟩).2 = .failure 401 "Invalid email or password" ∧
    (loginRoute (fun _ => true) (fun p hs => p == hs) sampleCfg 0
        ⟨[⟨1, "a@b.com", "secret1"⟩], 2⟩ ⟨"a@b.com", "wrongpw"⟩).2 =
      .failure 401 "Invalid email or password" := by
  have hmain := c5_login_enum_resistance (fun _ => true) (fun p hs => p == hs)
    sampleCfg 0 0 ⟨[], 1⟩ ⟨[⟨1, "a@b.com", "secret1"⟩], 2⟩
    ⟨"ghost@b.com", "secret1"⟩ ⟨"a@b.com", "wrongpw"⟩ ⟨1, "a@b.com", "secret1"⟩
    (by decide) (by decide) (by decide) (by decide) (by decide)
  exact ⟨hmain.1, hmain.2.1⟩

/-! ## C6 -/

/-- C6, counterexample.  The claim says the 409 message is identical across
the two code paths that detect a duplicate.  It is not: the service-level
existence check answers "User with this email already exists", while the
store-level unique-constraint signal (Prisma `P2002` through the global error
handler) answers "Unique constraint violation" — two different strings. -/
theorem c6_claim_false :
    (signupRoute (fun _ => true) (fun s => s) sampleCfg 0
        ⟨[⟨1, "a@b.com", "hash1"⟩], 2⟩ ⟨"a@b.com", "secret1"⟩).2 =
      .failure 409 "User with this email already exists" ∧
    errorHandler .p2002 =
      ⟨409, "Unique constraint violation", some "A record with this data already exists"⟩ ∧
    ("User with this email already exists" : String) ≠ "Unique constraint violation" := by
  refine ⟨by decide, by decide, by decide⟩

/-- C6, amended.  For every store state containing an account with the given
email, a validation-passing signup for that email fails with 409 and leaves
the user store unchanged (no partial creation); both duplicate-detecting
paths map to status 409, but their messages differ, so the responses do
reveal which check fired. -/
theorem c6_duplicate_conflict (emailOk : String → Bool) (hash : String → String)
    (cfg : JwtConfig) (now : Nat) (st : UserStore) (b : SignupBody) (u : User)
    (hv : signupValid emailOk b = true) (hdup : findByEmail st b.email = some u) :
    signupRoute emailOk hash cfg now st b =
      (st, .failure 409 "User with this email already exists") ∧
    (errorHandler .p2002).status = 409 := by
  exact ⟨by simp [signupRoute, hv, hdup], rfl⟩

/-- C6, witness: a duplicate signup against a concrete one-account store. -/
theorem c6_duplicate_conflict_witness :
    signupRoute (fun _ => true) (fun s => s) sampleCfg 0
        ⟨[⟨1, "a@b.com", "hash1"⟩], 2⟩ ⟨"a@b.com", "secret1"⟩ =
      (⟨[⟨1, "a@b.com", "hash1"⟩], 2⟩,
       .failure 409 "User with this email already exists") :=
  (c6_duplicate_conflict (fun _ => true) (fun s => s) sampleCfg 0
    ⟨[⟨1, "a@b.com", "hash1"⟩], 2⟩ ⟨"a@b.com", "secret1"⟩ ⟨1, "a@b.com", "hash1"⟩
    (by decide) (by decide)).1

/-! ## C7 -/

/-- C7: the token-refresh endpoint answers an expired refresh token with 401
"Refresh token expired"; a token signed with the wrong secret, or an
unparseable token, with 401 "Invalid refresh token"; a validly signed,
unexpired token whose embedded account id matches no stored account with 401
"User not found"; and on success it returns exactly one newly issued access
token and no refresh token, with the user store unchanged in every case (the
presented refresh token is neither rotated nor invalidated). -/
theorem c7_refresh_flow (cfg : JwtConfig) (now : Nat) (st : UserStore) :
    (∀ t : SignedJwt, t.secret = cfg.refreshSecret → t.iat + t.expiresInMs ≤ now →
      refreshRoute cfg now st (some (.tok t)) = (st, .failure 401 "Refresh token expired")) ∧
    (∀ t : SignedJwt, t.secret ≠ cfg.refreshSecret →
      refreshRoute cfg now st (some (.tok t)) = (st, .failure 401 "Invalid refresh token")) ∧
    (refreshRoute cfg now st (some .malformed) = (st, .failure 401 "Invalid refresh token")) ∧
    (∀ t : SignedJwt, t.secret = cfg.refreshSecret → now < t.iat + t.expiresInMs →
      findById st t.claims.userId = none →
      refreshRoute cfg now st (some (.tok t)) = (st, .failure 401 "User not found")) ∧
    (∀ (t : SignedJwt) (u : User), t.secret = cfg.refreshSecret →
      now < t.iat + t.expiresInMs → findById st t.claims.userId = some u →
      refreshRoute cfg now st (some (.tok t)) =
        (st, .success 200 (generateAccessToken cfg ⟨u.id, some u.email⟩ now) none)) := by
  refine ⟨?_, ?_, ?_, ?_, ?_⟩
  · intro t hsec hexp
    simp [refreshRoute, verifyRefreshTokenWire, verifyRefreshToken, verifyJwt, hsec, hexp]
  · intro t hsec
    simp [refreshRoute, verifyRefreshTokenWire, verifyRefreshToken, verifyJwt, hsec]
  · simp [refreshRoute, verifyRefreshTokenWire]
  · intro t hsec hlive hmiss
    have hne : ¬ (t.iat + t.expiresInMs ≤ now) := Nat.not_le.mpr hlive
    simp [refreshRoute, verifyRefreshTokenWire, verifyRefreshToken, verifyJwt, hsec, hne, hmiss]
  · intro t u hsec hlive hfound
    have hne : ¬ (t.iat + t.expiresInMs ≤ now) := Nat.not_le.mpr hlive
    simp [refreshRoute, verifyRefreshTokenWire, verifyRefreshToken, verifyJwt, hsec, hne, hfound]

/-- C7, witness: the four outcomes at concrete tokens, stores and instants —
an expired refresh token, an access-secret-signed token, a valid token for a
deleted account, and a successful refresh returning only an access token. -/
theorem c7_refresh_flow_witness :
    refreshRoute sampleCfg 604800000 ⟨[⟨1, "a@b.com", "hash1"⟩], 2⟩
        (some (.tok (generateRefreshToken sampleCfg ⟨1, none⟩ 0))) =
      (⟨[⟨1, "a@b.com", "hash1"⟩], 2⟩, .failure 401 "Refresh token expired") ∧
    refreshRoute sampleCfg 5 ⟨[⟨1, "a@b.com", "hash1"⟩], 2⟩
        (some (.tok (generateAccessToken sampleCfg ⟨1, none⟩ 0))) =
      (⟨[⟨1, "a@b.com", "hash1"⟩], 2⟩, .failure 401 "Invalid refresh token") ∧
    refreshRoute sampleCfg 5 ⟨[], 1⟩
        (some (.tok (generateRefreshToken sampleCfg ⟨9, none⟩ 0))) =
      (⟨[], 1⟩, .failure 401 "User not found") ∧
    refreshRoute sampleCfg 5 ⟨[⟨1, "a@b.com", "hash1"⟩], 2⟩
        (some (.tok (generateRefreshToken sampleCfg ⟨1, none⟩ 0))) =
      (⟨[⟨1, "a@b.com", "hash1"⟩], 2⟩,
       .success 200 (generateAccessToken sampleCfg ⟨1, some "a@b.com"⟩ 5) none) := by
  refine ⟨?_, ?_, ?_, ?_⟩
  · exact (c7_refresh_flow sampleCfg 604800000 ⟨[⟨1, "a@b.com", "hash1"⟩], 2⟩).1
      (generateRefreshToken sampleCfg ⟨1, none⟩ 0) (by decide) (by decide)
  · exact (c7_refresh_flow sampleCfg 5 ⟨[⟨1, "a@b.com", "hash1"⟩], 2⟩).2.1
      (generateAccessToken sampleCfg ⟨1, none⟩ 0) (by decide)
  · exact (c7_refresh_flow sampleCfg 5 ⟨[], 1⟩).2.2.2.1
      (generateRefreshToken sampleCfg ⟨9, none⟩ 0) (by decide) (by decide) (by decide)
  · exact (c7_refresh_flow sampleCfg 5 ⟨[⟨1, "a@b.com", "hash1"⟩], 2⟩).2.2.2.2
      (generateRefreshToken sampleCfg ⟨1, none⟩ 0) ⟨1, "a@b.com", "hash1"⟩
      (by decide) (by decide) (by decide)

/-! ## C8 -/

/-- C8: every validation-passing signup for a fresh email is answered 201
with the account info consisting of exactly the id and email (the `UserInfo`
projection has no password field), one access token and one refresh token;
and the returned access token, verified immediately against the access
secret, decodes to claims whose account id is the id of the account just
created. -/
theorem c8_signup_success (emailOk : String → Bool) (hash : String → String)
    (cfg : JwtConfig) (now : Nat) (st : UserStore) (b : SignupBody)
    (hv : signupValid emailOk b = true) (hfresh : findByEmail st b.email = none)
    (hexp : 0 < cfg.accessExpiryMs) :
    signupRoute emailOk hash cfg now st b =
      (⟨st.users ++ [⟨st.nextId, b.email, hash b.password⟩], st.nextId + 1⟩,
       .success 201 "User created successfully" ⟨st.nextId, b.email⟩
         (generateAccessToken cfg ⟨st.nextId, some b.email⟩ now)
         (generateRefreshToken cfg ⟨st.nextId, none⟩ now)) ∧
    verifyAccessToken cfg now (generateAccessToken cfg ⟨st.nextId, some b.email⟩ now) =
      .ok ⟨st.nextId, some b.email⟩ := by
  constructor
  · simp [signupRoute, hv, hfresh, createUser, generateAccessToken, generateRefreshToken]
  · have hne : ¬ (now + cfg.accessExpiryMs ≤ now) := by omega
    simp [verifyAccessToken, generateAccessToken, signJwt, verifyJwt, hne]

/-- C8, witness: a concrete signup of `a@b.com` into an empty store creates
account 1, returns only its id and email, and the returned access token
verifies back to claims for account 1. -/
theorem c8_signup_success_witness :
    signupRoute (fun _ => true) (fun s => s) sampleCfg 1000 ⟨[], 1⟩ ⟨"a@b.com", "secret1"⟩ =
      (⟨[⟨1, "a@b.com", "secret1"⟩], 2⟩,
       .success 201 "User created successfully" ⟨1, "a@b.com"⟩
         (generateAccessToken sampleCfg ⟨1, some "a@b.com"⟩ 1000)
         (generateRefreshToken sampleCfg ⟨1, none⟩ 1000)) ∧
    verifyAccessToken sampleCfg 1000 (generateAccessToken sampleCfg ⟨1, some "a@b.com"⟩ 1000) =
      .ok ⟨1, some "a@b.com"⟩ := by
  have hmain := c8_signup_success (fun _ => true) (fun s => s) sampleCfg 1000 ⟨[], 1⟩
    ⟨"a@b.com", "secret1"⟩ (by decide) (by decide) (by decide)
  exact ⟨hmain.1.trans (by decide), hmain.2⟩

/-! ## C9 -/

/-- C9: every authenticated GET /trades request with validation-passing
optional filters is answered 200 with exactly the stored records matching
every supplied filter — all records when no filter is supplied — in ascending
record-id order, each shaped as a `TradeResponse` (the create-response shape,
timestamp as epoch-milliseconds integer). -/
theorem c9_list_trades (verifyStr : String → Except VerifyError Claims)
    (h : Option String) (u : Claims) (st : TradeStore)
    (type? : Option String) (userId? : Option Rat)
    (hauth : authenticateToken verifyStr h = .proceed u)
    (hq : tradeQueryValid type? userId? = true) :
    getTradesRoute verifyStr h st type? userId? =
      .ok 200 ((findManyTrades st type? (userId?.map ratToNat)).map tradeToResponse) ∧
    (∀ r, r ∈ (findManyTrades st type? (userId?.map ratToNat)).map tradeToResponse ↔
      ∃ t, t ∈ st.trades ∧ tradeMatches type? (userId?.map ratToNat) t = true ∧
        r = tradeToResponse t) ∧
    ((findManyTrades st type? (userId?.map ratToNat)).map tradeToResponse).Pairwise
      (fun a b => a.id ≤ b.id) ∧
    (type? = none → userId? = none →
      ((findManyTrades st type? (userId?.map ratToNat)).map tradeToResponse).Perm
        (st.trades.map tradeToResponse)) := by
  refine ⟨by simp [getTradesRoute, hauth, hq], ?_, ?_, ?_⟩
  · intro r
    constructor
    · intro hr
      obtain ⟨t, ht, rfl⟩ := List.mem_map.mp hr
      have ht' : t ∈ st.trades.filter (tradeMatches type? (userId?.map ratToNat)) :=
        (List.perm_insertionSort _ _).mem_iff.mp ht
      exact ⟨t, (List.mem_filter.mp ht').1, (List.mem_filter.mp ht').2, rfl⟩
    · rintro ⟨t, hmem, hmatch, rfl⟩
      refine List.mem_map.mpr ⟨t, ?_, rfl⟩
      exact (List.perm_insertionSort _ _).mem_iff.mpr (List.mem_filter.mpr ⟨hmem, hmatch⟩)
  · have hs := List.sorted_insertionSort (fun (a b : Trade) => a.id ≤ b.id)
      (st.trades.filter (tradeMatches type? (userId?.map ratToNat)))
    exact hs.map tradeToResponse (fun a b hab => hab)
  · rintro rfl rfl
    have hfilter : st.trades.filter (tradeMatches none none) = st.trades :=
      List.filter_eq_self.mpr (fun a _ => rfl)
    have hperm := List.perm_insertionSort (fun (a b : Trade) => a.id ≤ b.id)
      (st.trades.filter (tradeMatches none none))
    rw [hfilter] at hperm
    simpa [findManyTrades, sortTradesById, hfilter] using hperm.map tradeToResponse

/-- C9, witness: after one buy and one sell trade for the same account,
filtering by `type=buy` returns exactly the buy record. -/
theorem c9_list_trades_witness :
    getTradesRoute (verifyAccessTokenStr sampleCfg 1000)
        (some ("Bearer " ++ encodeJwt sampleTok))
        ⟨[⟨1, "buy", 7, "AAPL", 50, 150, 5000⟩, ⟨2, "sell", 7, "MSFT", 10, 20, 6000⟩], 3⟩
        (some "buy") none =
      .ok 200 [⟨1, "buy", 7, "AAPL", 50, 150, 5000⟩] :=
  ((c9_list_trades (verifyAccessTokenStr sampleCfg 1000)
    (some ("Bearer " ++ encodeJwt sampleTok)) ⟨7, some "a@b.com"⟩
    ⟨[⟨1, "buy", 7, "AAPL", 50, 150, 5000⟩, ⟨2, "sell", 7, "MSFT", 10, 20, 6000⟩], 3⟩
    (some "buy") none (by decide) (by decide)).1).trans (by decide)

/-! ## C10 -/

/-- C10 (implicit): trade creation never consults the authenticated caller's
identity.  Two requests that authenticate as possibly different users but
carry the same valid body produce identical results, and the persisted and
returned trade's `user_id` is the body's `user_id` — whatever account id the
verified token's claims carry. -/
theorem c10_caller_identity_unused (v1 v2 : String → Except VerifyError Claims)
    (h1 h2 : Option String) (u1 u2 : Claims) (st : TradeStore) (now : Nat) (b : TradeBody)
    (hauth1 : authenticateToken v1 h1 = .proceed u1)
    (hauth2 : authenticateToken v2 h2 = .proceed u2) :
    postTradesRoute v1 h1 st now b = postTradesRoute v2 h2 st now b ∧
    (∀ ty uid sym sh pr, b = ⟨some ty, some uid, some sym, some sh, some pr⟩ →
      createTradeValid b = true →
      postTradesRoute v1 h1 st now b =
        (⟨st.trades ++ [⟨st.nextId, ty, ratToNat uid, upperJs sym, ratToNat sh, pr, now⟩],
           st.nextId + 1⟩,
         .created 201
           (tradeToResponse ⟨st.nextId, ty, ratToNat uid, upperJs sym, ratToNat sh, pr, now⟩))) := by
  constructor
  · simp [postTradesRoute, hauth1, hauth2]
  · rintro ty uid sym sh pr rfl hv
    simp [postTradesRoute, hauth1, hv, postTradesHandler, createTrade]

/-- C10, witness: a caller authenticated as account 7 creates a trade whose
body names account 9; the persisted record's `user_id` is 9, not the token's
account id, and a caller authenticated as account 9 gets the same result. -/
theorem c10_caller_identity_unused_witness :
    sampleTok.claims.userId = 7 ∧
    postTradesRoute (verifyAccessTokenStr sampleCfg 1000)
        (some ("Bearer " ++ encodeJwt sampleTok)) ⟨[], 1⟩ 5000
        ⟨some "buy", some 9, some "aapl", some 50, some 150⟩ =
      (⟨[⟨1, "buy", 9, "AAPL", 50, 150, 5000⟩], 2⟩,
       .created 201 ⟨1, "buy", 9, "AAPL", 50, 150, 5000⟩) ∧
    (⟨1, "buy", 9, "AAPL", 50, 150, 5000⟩ : Trade).userId ≠ sampleTok.claims.userId ∧
    postTradesRoute (verifyAccessTokenStr sampleCfg 1000)
        (some ("Bearer " ++ encodeJwt sampleTok)) ⟨[], 1⟩ 5000
        ⟨some "buy", some 9, some "aapl", some 50, some 150⟩ =
      postTradesRoute (verifyAccessTokenStr sampleCfg 1000)
        (some ("Bearer " ++ encodeJwt (generateAccessToken sampleCfg ⟨9, some "c@d.com"⟩ 1000)))
        ⟨[], 1⟩ 5000 ⟨some "buy", some 9, some "aapl", some 50, some 150⟩ := by
  have hmain := c10_caller_identity_unused
    (verifyAccessTokenStr sampleCfg 1000) (verifyAccessTokenStr sampleCfg 1000)
    (some ("Bearer " ++ encodeJwt sampleTok))
    (some ("Bearer " ++ encodeJwt (generateAccessToken sampleCfg ⟨9, some "c@d.com"⟩ 1000)))
    ⟨7, some "a@b.com"⟩ ⟨9, some "c@d.com"⟩ ⟨[], 1⟩ 5000
    ⟨some "buy", some 9, some "aapl", some 50, some 150⟩ (by decide) (by decide)
  exact ⟨by decide, (hmain.2 "buy" 9 "aapl" 50 150 rfl (by decide)).trans (by decide),
    by decide, hmain.1⟩

end StockTrade
